import Mathlib

/-!
Shallow embedding of `src/DynamicLoopCheck.h` and the geometry transform of
`src/main.cpp` (repository `cpp_tutorial`), together with proofs checking the
natural-language specification against the code.

Modelling conventions:
* The mutable globals of namespace `LoopMonitorConfig` become an explicit
  `Config` record threaded through each operation.
* Everything written to `std::cerr` is modelled as a list of `SinkLine`
  values, one constructor per distinct line shape the code can print,
  carrying the data that appears in the line.
* `uint64_t` values are `Nat` with explicit reduction modulo `2 ^ 64` at the
  points where C performs a conversion (`static_cast<uint64_t>`) or may wrap
  (`++cnt`).
* The mutex in `loopWarn` serializes all executions of the alert path, so a
  concurrent history is modelled as a sequence of whole check invocations.
* The environment-dependent inputs of an alert — the wall-clock time used by
  `ctime` and the result of `backtrace`/`backtrace_symbols` — are parameters:
  `tm : Nat` and `cap : Option (List String)` (`none` models
  `backtrace_symbols` returning `NULL`).
* C control flow of the two guard macros: each macro body is a
  `do { ... } while(0)` statement; a `break` inside it terminates that
  do-while itself, not the loop enclosing the macro invocation.  The embedding
  keeps the body (where the `break` statement runs) and the whole macro
  statement (whose exit status is what the enclosing loop observes) as two
  separate definitions, related by `doWhile0Exit`.
-/

/-- The value `2 ^ 64`, the modulus of C's `uint64_t` arithmetic. -/
def U64 : Nat := 2 ^ 64

/-- `static_cast<uint64_t>(N)` for an arbitrary (up to 64-bit) integer
argument `N`: conversion to `uint64_t` is reduction modulo `2 ^ 64`. -/
def toUInt64Cast (z : Int) : Nat := (z % (2 : Int) ^ 64).toNat

/-- The globals of namespace `LoopMonitorConfig` in `DynamicLoopCheck.h`:
`LOOP_WARN_THRESHOLD : std::atomic<uint64_t>`,
`WARN_ONCE_PER_PROCESS : std::atomic<bool>`,
`ENABLE_STACK_TRACE : bool`, `ENABLE_LOOP_BREAK : bool`. -/
structure Config where
  LOOP_WARN_THRESHOLD : Nat
  WARN_ONCE_PER_PROCESS : Bool
  ENABLE_STACK_TRACE : Bool
  ENABLE_LOOP_BREAK : Bool
deriving DecidableEq

/-- The initial values of the globals: threshold 1000000, warn-once true,
stack trace enabled, loop break disabled. -/
def initialConfig : Config :=
  { LOOP_WARN_THRESHOLD := 1000000
    WARN_ONCE_PER_PROCESS := true
    ENABLE_STACK_TRACE := true
    ENABLE_LOOP_BREAK := false }

/-- One line written to `std::cerr`, by shape, carrying the data printed in
it.  `warnHeader` is the `[DYNAMIC_LOOP_WARN] <ctime>` line that opens every
alert emission; `countLine` carries the printed count and threshold;
`stackHeader`/`stackFrame`/`stackFooter` are the stack-trace section;
`breakMsgSize` and `breakMsgCount` are the two `[LOOP_BREAK]` notices;
`configMsg` is the `[LOOP_CONFIG]` threshold-update notice. -/
inductive SinkLine where
  | warnHeader (tm : Nat)
  | loopNameLine (name : String)
  | countLine (count threshold : Nat)
  | stackHeader
  | stackFrame (idx : Nat) (sym : String)
  | stackFooter
  | breakMsgSize
  | breakMsgCount
  | configMsg (newThreshold : Nat)
deriving DecidableEq

/-- Whether a sink line is the `[DYNAMIC_LOOP_WARN]` header that opens a full
alert emission.  Each emission writes exactly one such line. -/
def SinkLine.isWarnHeader : SinkLine → Bool
  | .warnHeader _ => true
  | _ => false

/-- Number of full alert emissions recorded in a sink output: the number of
`[DYNAMIC_LOOP_WARN]` header lines. -/
def emissions (out : List SinkLine) : Nat :=
  out.countP SinkLine.isWarnHeader

/-- `printLoopStackTrace` of `DynamicLoopCheck.h`: returns immediately when
`ENABLE_STACK_TRACE` is off; otherwise captures the stack.  `cap = none`
models `backtrace_symbols` returning `NULL` (then nothing is printed);
`cap = some funcNames` prints the section header, one line per frame with its
index and symbol string, and the footer. -/
def printLoopStackTrace (cfg : Config) (cap : Option (List String)) : List SinkLine :=
  if !cfg.ENABLE_STACK_TRACE then []
  else
    match cap with
    | none => []
    | some funcNames =>
        [SinkLine.stackHeader]
          ++ funcNames.enum.map (fun p => SinkLine.stackFrame p.1 p.2)
          ++ [SinkLine.stackFooter]

/-- `loopWarn` of `DynamicLoopCheck.h`.  Under the mutex (modelled by the
whole function being one atomic step of the history), if
`WARN_ONCE_PER_PROCESS` is set: print the alert header with the current time,
the loop name, the count and current threshold, then the stack trace, and
clear `WARN_ONCE_PER_PROCESS`; otherwise do nothing.  Returns the updated
globals and the lines written to `std::cerr`. -/
def loopWarn (cfg : Config) (loopName : String) (loopSize : Nat) (tm : Nat)
    (cap : Option (List String)) : Config × List SinkLine :=
  if cfg.WARN_ONCE_PER_PROCESS then
    ({ cfg with WARN_ONCE_PER_PROCESS := false },
      [SinkLine.warnHeader tm, SinkLine.loopNameLine loopName,
        SinkLine.countLine loopSize cfg.LOOP_WARN_THRESHOLD]
        ++ printLoopStackTrace cfg cap)
  else (cfg, [])

/-- Exit status of a C statement occurring inside a loop body: it either
completes normally or executes `break`. -/
inductive StmtExit where
  | normal
  | brk
deriving DecidableEq

/-- C semantics of the `do { ... } while(0)` wrapper used by both guard
macros: a `break` executed inside the braces terminates the innermost
enclosing iteration statement, which is the `do ... while(0)` itself, so the
whole macro statement always completes normally as far as the loop enclosing
the macro invocation is concerned. -/
def doWhile0Exit (_ : StmtExit) : StmtExit := StmtExit.normal

/-- Result of one `CHECK_LOOP_DYNAMIC_SIZE` invocation: updated globals, the
lines written to `std::cerr`, and the exit status. -/
structure CheckResult where
  cfg : Config
  out : List SinkLine
  exit : StmtExit
deriving DecidableEq

/-- The braces of macro `CHECK_LOOP_DYNAMIC_SIZE(N, LOOP_NAME)` :
`loopSize = static_cast<uint64_t>(N)`; if `loopSize` exceeds the threshold,
call `loopWarn`, and if `ENABLE_LOOP_BREAK` then print the `[LOOP_BREAK]`
notice and execute `break`.  The `exit` field records whether the `break`
statement ran. -/
def CHECK_LOOP_DYNAMIC_SIZE_body (cfg : Config) (N : Int) (LOOP_NAME : String)
    (tm : Nat) (cap : Option (List String)) : CheckResult :=
  let loopSize := toUInt64Cast N
  if cfg.LOOP_WARN_THRESHOLD < loopSize then
    let w := loopWarn cfg LOOP_NAME loopSize tm cap
    if w.1.ENABLE_LOOP_BREAK then
      { cfg := w.1, out := w.2 ++ [SinkLine.breakMsgSize], exit := StmtExit.brk }
    else
      { cfg := w.1, out := w.2, exit := StmtExit.normal }
  else
    { cfg := cfg, out := [], exit := StmtExit.normal }

/-- Macro `CHECK_LOOP_DYNAMIC_SIZE(N, LOOP_NAME)` as one statement at its
call site: the body wrapped in `do { ... } while(0)`.  Its `exit` field is
the status the loop enclosing the macro invocation observes. -/
def CHECK_LOOP_DYNAMIC_SIZE (cfg : Config) (N : Int) (LOOP_NAME : String)
    (tm : Nat) (cap : Option (List String)) : CheckResult :=
  let b := CHECK_LOOP_DYNAMIC_SIZE_body cfg N LOOP_NAME tm cap
  { b with exit := doWhile0Exit b.exit }

/-- Result of one `LOOP_DYNAMIC_COUNT_CHECK` invocation: updated globals, the
updated counter variable, the lines written to `std::cerr`, and the exit
status. -/
structure CountCheckResult where
  cfg : Config
  cnt : Nat
  out : List SinkLine
  exit : StmtExit
deriving DecidableEq

/-- The braces of macro `LOOP_DYNAMIC_COUNT_CHECK(CNT_VAR, LOOP_NAME)` :
increment the `uint64_t` counter (wrapping modulo `2 ^ 64`); if the new value
exceeds the threshold, call `loopWarn`, and if `ENABLE_LOOP_BREAK` then print
the `[LOOP_BREAK]` notice and execute `break`. -/
def LOOP_DYNAMIC_COUNT_CHECK_body (cfg : Config) (LOOP_NAME : String)
    (tm : Nat) (cap : Option (List String)) (CNT_VAR : Nat) : CountCheckResult :=
  let cnt := (CNT_VAR + 1) % U64
  if cfg.LOOP_WARN_THRESHOLD < cnt then
    let w := loopWarn cfg LOOP_NAME cnt tm cap
    if w.1.ENABLE_LOOP_BREAK then
      { cfg := w.1, cnt := cnt, out := w.2 ++ [SinkLine.breakMsgCount],
        exit := StmtExit.brk }
    else
      { cfg := w.1, cnt := cnt, out := w.2, exit := StmtExit.normal }
  else
    { cfg := cfg, cnt := cnt, out := [], exit := StmtExit.normal }

/-- Macro `LOOP_DYNAMIC_COUNT_CHECK(CNT_VAR, LOOP_NAME)` as one statement at
its call site: the body wrapped in `do { ... } while(0)`. -/
def LOOP_DYNAMIC_COUNT_CHECK (cfg : Config) (LOOP_NAME : String)
    (tm : Nat) (cap : Option (List String)) (CNT_VAR : Nat) : CountCheckResult :=
  let b := LOOP_DYNAMIC_COUNT_CHECK_body cfg LOOP_NAME tm cap CNT_VAR
  { b with exit := doWhile0Exit b.exit }

/-- `setLoopWarnThreshold` of `DynamicLoopCheck.h`: stores the new threshold
and prints the `[LOOP_CONFIG]` update notice to `std::cerr`. -/
def setLoopWarnThreshold (cfg : Config) (newThreshold : Nat) : Config × List SinkLine :=
  ({ cfg with LOOP_WARN_THRESHOLD := newThreshold },
    [SinkLine.configMsg newThreshold])

/-- `resetLoopWarnFlag` of `DynamicLoopCheck.h`: re-arms one-shot alerting by
setting `WARN_ONCE_PER_PROCESS` back to `true`. -/
def resetLoopWarnFlag (cfg : Config) : Config :=
  { cfg with WARN_ONCE_PER_PROCESS := true }

/-- One guard-check invocation in a history of calls: either a pre-loop size
check (with its cast argument, loop name, time and capture environment) or an
in-loop count check (the single shared counter of the history stands for the
caller's counter variable). -/
inductive CheckEvent where
  | size (N : Int) (name : String) (tm : Nat) (cap : Option (List String))
  | count (name : String) (tm : Nat) (cap : Option (List String))

/-- Accumulated result of a run: final globals, final counter, concatenated
sink output. -/
structure RunResult where
  cfg : Config
  cnt : Nat
  out : List SinkLine
deriving DecidableEq

/-- Run a sequence of check invocations.  Because `loopWarn` holds a mutex
for its whole body, any concurrent history of checks is equivalent to some
such sequence. -/
def runChecks (cfg : Config) (cnt : Nat) : List CheckEvent → RunResult
  | [] => { cfg := cfg, cnt := cnt, out := [] }
  | CheckEvent.size N name tm cap :: evs =>
      let r := CHECK_LOOP_DYNAMIC_SIZE cfg N name tm cap
      let rest := runChecks r.cfg cnt evs
      { cfg := rest.cfg, cnt := rest.cnt, out := r.out ++ rest.out }
  | CheckEvent.count name tm cap :: evs =>
      let r := LOOP_DYNAMIC_COUNT_CHECK cfg name tm cap cnt
      let rest := runChecks r.cfg r.cnt evs
      { cfg := rest.cfg, cnt := rest.cnt, out := r.out ++ rest.out }

/-- A caller's loop of `n` iterations whose body runs
`LOOP_DYNAMIC_COUNT_CHECK(CNT_VAR, LOOP_NAME)` once per iteration.  The
driver honours the exit status the macro statement delivers to the enclosing
loop: on `brk` the loop stops at that iteration. -/
def runCountLoop (cfg : Config) (LOOP_NAME : String) (tm : Nat)
    (cap : Option (List String)) (cnt : Nat) : Nat → RunResult
  | 0 => { cfg := cfg, cnt := cnt, out := [] }
  | n + 1 =>
      let r := LOOP_DYNAMIC_COUNT_CHECK cfg LOOP_NAME tm cap cnt
      match r.exit with
      | StmtExit.brk => { cfg := r.cfg, cnt := r.cnt, out := r.out }
      | StmtExit.normal =>
          let rest := runCountLoop r.cfg LOOP_NAME tm cap r.cnt n
          { cfg := rest.cfg, cnt := rest.cnt, out := r.out ++ rest.out }

namespace ImageTransform

/-- Reference side length `L_ORIGINAL = 103.0` of `src/main.cpp`, with the
exact `double` literals of the source modelled as rationals. -/
def L_ORIGINAL : ℚ := 103

/-- Reference diameter `D_ORIGINAL = 68.0` of `src/main.cpp`. -/
def D_ORIGINAL : ℚ := 68

/-- Reference centre x-offset `CENTER_X_ORIGINAL = 63.0` of `src/main.cpp`. -/
def CENTER_X_ORIGINAL : ℚ := 63

/-- Reference centre y-offset `CENTER_Y_ORIGINAL = 62.5` of `src/main.cpp`. -/
def CENTER_Y_ORIGINAL : ℚ := 62.5

/-- `ImageTransform::TransformResult` of `src/main.cpp`. -/
structure TransformResult where
  scaleFactor : ℚ
  scaledLength : ℚ
  imageDrawX : ℚ
  imageDrawY : ℚ
  imageDrawEndX : ℚ
  imageDrawEndY : ℚ
deriving DecidableEq

/-- `ImageTransform::CalculateImageTransform` of `src/main.cpp`, with the
`double` arithmetic modelled as exact rational arithmetic (the spec states
the golden values "exact to the stated formula"). -/
def CalculateImageTransform (D_target start_draw_x start_draw_y : ℚ) :
    TransformResult :=
  let scaleFactor := D_target / D_ORIGINAL
  let center_x_scaled := CENTER_X_ORIGINAL * scaleFactor
  let center_y_scaled := CENTER_Y_ORIGINAL * scaleFactor
  let scaledLength := L_ORIGINAL * scaleFactor
  let imageDrawX := start_draw_x - center_x_scaled
  let imageDrawY := start_draw_y - center_y_scaled
  { scaleFactor := scaleFactor
    scaledLength := scaledLength
    imageDrawX := imageDrawX
    imageDrawY := imageDrawY
    imageDrawEndX := imageDrawX + scaledLength
    imageDrawEndY := imageDrawY + scaledLength }

end ImageTransform

/-! ## Helper lemmas -/

/-- The globals after any `loopWarn` call: `WARN_ONCE_PER_PROCESS` is clear,
everything else unchanged. -/
theorem loopWarn_fst (cfg : Config) (name : String) (s tm : Nat)
    (cap : Option (List String)) :
    (loopWarn cfg name s tm cap).1 = { cfg with WARN_ONCE_PER_PROCESS := false } := by
  obtain ⟨t, w, st, br⟩ := cfg
  cases w <;> simp [loopWarn]

/-- A `loopWarn` call with the warn-once flag already clear is a no-op. -/
theorem loopWarn_disarmed (cfg : Config) (name : String) (s tm : Nat)
    (cap : Option (List String)) (hf : cfg.WARN_ONCE_PER_PROCESS = false) :
    loopWarn cfg name s tm cap = (cfg, []) := by
  simp [loopWarn, hf]

/-- Emission count is additive over concatenated sink output. -/
theorem emissions_append (a b : List SinkLine) :
    emissions (a ++ b) = emissions a + emissions b := by
  simp [emissions, List.countP_append]

/-- Emission count of an empty output. -/
theorem emissions_nil : emissions [] = 0 := rfl

/-- Emission count of one more line. -/
theorem emissions_cons (a : SinkLine) (l : List SinkLine) :
    emissions (a :: l) = emissions l + if a.isWarnHeader then 1 else 0 := by
  simp [emissions, List.countP_cons]

/-- Rendered stack frames contain no alert header. -/
theorem emissions_frames (l : List (Nat × String)) :
    emissions (l.map (fun p => SinkLine.stackFrame p.1 p.2)) = 0 := by
  induction l with
  | nil => rfl
  | cons p l ih => simp [emissions_cons, SinkLine.isWarnHeader, ih]

/-- The stack-trace section contains no alert header. -/
theorem emissions_printLoopStackTrace (cfg : Config) (cap : Option (List String)) :
    emissions (printLoopStackTrace cfg cap) = 0 := by
  unfold printLoopStackTrace
  rcases cap with _ | fns
  · cases cfg.ENABLE_STACK_TRACE <;> simp [emissions]
  · cases h : cfg.ENABLE_STACK_TRACE
    · simp [h, emissions]
    · simp [h, emissions_append, emissions_cons, emissions_nil,
        SinkLine.isWarnHeader, emissions_frames]

/-- A `loopWarn` call writes exactly one alert header when the warn-once flag
is set, and none otherwise. -/
theorem emissions_loopWarn (cfg : Config) (name : String) (s tm : Nat)
    (cap : Option (List String)) :
    emissions (loopWarn cfg name s tm cap).2
      = if cfg.WARN_ONCE_PER_PROCESS then 1 else 0 := by
  cases h : cfg.WARN_ONCE_PER_PROCESS <;>
    simp [loopWarn, h, emissions_append, emissions_cons, emissions_nil,
      SinkLine.isWarnHeader, emissions_printLoopStackTrace]

/-- Potential of a configuration: 1 while armed, 0 once alerted. -/
def flagVal (cfg : Config) : Nat :=
  if cfg.WARN_ONCE_PER_PROCESS then 1 else 0

/-- One pre-loop size check emits at most the potential it consumes. -/
theorem check_size_potential (cfg : Config) (N : Int) (name : String) (tm : Nat)
    (cap : Option (List String)) :
    emissions (CHECK_LOOP_DYNAMIC_SIZE cfg N name tm cap).out
      + flagVal (CHECK_LOOP_DYNAMIC_SIZE cfg N name tm cap).cfg ≤ flagVal cfg := by
  obtain ⟨t, w, st, br⟩ := cfg
  unfold CHECK_LOOP_DYNAMIC_SIZE CHECK_LOOP_DYNAMIC_SIZE_body
  by_cases hlt : t < toUInt64Cast N <;>
    cases w <;> cases br <;>
      simp [hlt, doWhile0Exit, flagVal, loopWarn, emissions_append,
        emissions_cons, emissions_nil, SinkLine.isWarnHeader,
        emissions_printLoopStackTrace]

/-- One in-loop count check emits at most the potential it consumes. -/
theorem check_count_potential (cfg : Config) (name : String) (tm : Nat)
    (cap : Option (List String)) (cnt : Nat) :
    emissions (LOOP_DYNAMIC_COUNT_CHECK cfg name tm cap cnt).out
      + flagVal (LOOP_DYNAMIC_COUNT_CHECK cfg name tm cap cnt).cfg ≤ flagVal cfg := by
  obtain ⟨t, w, st, br⟩ := cfg
  unfold LOOP_DYNAMIC_COUNT_CHECK LOOP_DYNAMIC_COUNT_CHECK_body
  by_cases hlt : t < (cnt + 1) % U64 <;>
    cases w <;> cases br <;>
      simp [hlt, doWhile0Exit, flagVal, loopWarn, emissions_append,
        emissions_cons, emissions_nil, SinkLine.isWarnHeader,
        emissions_printLoopStackTrace]

/-- Any sequence of checks emits at most the potential of its starting
configuration. -/
theorem runChecks_potential (evs : List CheckEvent) : ∀ (cfg : Config) (cnt : Nat),
    emissions (runChecks cfg cnt evs).out + flagVal (runChecks cfg cnt evs).cfg
      ≤ flagVal cfg := by
  induction evs with
  | nil => intro cfg cnt; simp [runChecks, emissions]
  | cons e evs ih =>
      intro cfg cnt
      cases e with
      | size N name tm cap =>
          have h1 := check_size_potential cfg N name tm cap
          have h2 := ih (CHECK_LOOP_DYNAMIC_SIZE cfg N name tm cap).cfg cnt
          simp only [runChecks, emissions_append]
          omega
      | count name tm cap =>
          have h1 := check_count_potential cfg name tm cap cnt
          have h2 := ih (LOOP_DYNAMIC_COUNT_CHECK cfg name tm cap cnt).cfg
            (LOOP_DYNAMIC_COUNT_CHECK cfg name tm cap cnt).cnt
          simp only [runChecks, emissions_append]
          omega

/-- A pre-loop size check with the warn-once flag clear and loop break
disabled changes nothing and prints nothing. -/
theorem check_size_quiet (cfg : Config) (N : Int) (name : String) (tm : Nat)
    (cap : Option (List String)) (hf : cfg.WARN_ONCE_PER_PROCESS = false)
    (hb : cfg.ENABLE_LOOP_BREAK = false) :
    CHECK_LOOP_DYNAMIC_SIZE cfg N name tm cap
      = { cfg := cfg, out := [], exit := StmtExit.normal } := by
  obtain ⟨t, w, st, br⟩ := cfg
  simp only at hf hb
  subst hf; subst hb
  unfold CHECK_LOOP_DYNAMIC_SIZE CHECK_LOOP_DYNAMIC_SIZE_body
  by_cases hlt : t < toUInt64Cast N <;> simp [hlt, loopWarn, doWhile0Exit]

/-- An in-loop count check with the warn-once flag clear and loop break
disabled just increments the counter. -/
theorem check_count_quiet (cfg : Config) (name : String) (tm : Nat)
    (cap : Option (List String)) (cnt : Nat)
    (hf : cfg.WARN_ONCE_PER_PROCESS = false)
    (hb : cfg.ENABLE_LOOP_BREAK = false) :
    LOOP_DYNAMIC_COUNT_CHECK cfg name tm cap cnt
      = { cfg := cfg, cnt := (cnt + 1) % U64, out := [], exit := StmtExit.normal } := by
  obtain ⟨t, w, st, br⟩ := cfg
  simp only at hf hb
  subst hf; subst hb
  unfold LOOP_DYNAMIC_COUNT_CHECK LOOP_DYNAMIC_COUNT_CHECK_body
  by_cases hlt : t < (cnt + 1) % U64 <;> simp [hlt, loopWarn, doWhile0Exit]

/-- An in-loop count check whose incremented counter does not exceed the
threshold changes nothing but the counter, in any configuration. -/
theorem check_count_noover (cfg : Config) (name : String) (tm : Nat)
    (cap : Option (List String)) (cnt : Nat)
    (h : ¬ cfg.LOOP_WARN_THRESHOLD < (cnt + 1) % U64) :
    LOOP_DYNAMIC_COUNT_CHECK cfg name tm cap cnt
      = { cfg := cfg, cnt := (cnt + 1) % U64, out := [], exit := StmtExit.normal } := by
  unfold LOOP_DYNAMIC_COUNT_CHECK LOOP_DYNAMIC_COUNT_CHECK_body
  simp [h, doWhile0Exit]

/-- A whole sequence of checks run with the warn-once flag clear and loop
break disabled leaves the globals unchanged and prints nothing. -/
theorem runChecks_quiet (evs : List CheckEvent) : ∀ (cfg : Config) (cnt : Nat),
    cfg.WARN_ONCE_PER_PROCESS = false → cfg.ENABLE_LOOP_BREAK = false →
    (runChecks cfg cnt evs).cfg = cfg ∧ (runChecks cfg cnt evs).out = [] := by
  induction evs with
  | nil => intro cfg cnt _ _; exact ⟨rfl, rfl⟩
  | cons e evs ih =>
      intro cfg cnt hf hb
      cases e with
      | size N name tm cap =>
          simp only [runChecks, check_size_quiet cfg N name tm cap hf hb]
          have := ih cfg cnt hf hb
          simp [this.1, this.2]
      | count name tm cap =>
          simp only [runChecks, check_count_quiet cfg name tm cap cnt hf hb]
          have := ih cfg ((cnt + 1) % U64) hf hb
          simp [this.1, this.2]

/-- A counted loop whose increments never exceed the threshold runs all its
iterations silently. -/
theorem runCountLoop_silent (n : Nat) : ∀ (cfg : Config) (name : String)
    (tm : Nat) (cap : Option (List String)) (c : Nat),
    cfg.LOOP_WARN_THRESHOLD < U64 →
    c + n ≤ cfg.LOOP_WARN_THRESHOLD →
    runCountLoop cfg name tm cap c n = { cfg := cfg, cnt := c + n, out := [] } := by
  induction n with
  | zero => intro cfg name tm cap c _ _; simp [runCountLoop]
  | succ n ih =>
      intro cfg name tm cap c hU hle
      have hmod : (c + 1) % U64 = c + 1 := Nat.mod_eq_of_lt (by omega)
      have hng : ¬ cfg.LOOP_WARN_THRESHOLD < (c + 1) % U64 := by
        rw [hmod]; omega
      rw [runCountLoop, check_count_noover cfg name tm cap c hng]
      rw [hmod]
      simp only []
      rw [ih cfg name tm cap (c + 1) hU (by omega)]
      simp [RunResult.mk.injEq]
      omega

/-- A counted loop run with the warn-once flag clear and loop break disabled
runs all its iterations, incrementing the counter silently. -/
theorem runCountLoop_disarmed (n : Nat) : ∀ (cfg : Config) (name : String)
    (tm : Nat) (cap : Option (List String)) (c : Nat),
    cfg.WARN_ONCE_PER_PROCESS = false →
    cfg.ENABLE_LOOP_BREAK = false →
    c + n < U64 →
    runCountLoop cfg name tm cap c n = { cfg := cfg, cnt := c + n, out := [] } := by
  induction n with
  | zero => intro cfg name tm cap c _ _ _; simp [runCountLoop]
  | succ n ih =>
      intro cfg name tm cap c hf hb hU
      have hmod : (c + 1) % U64 = c + 1 := Nat.mod_eq_of_lt (by omega)
      rw [runCountLoop, check_count_quiet cfg name tm cap c hf hb]
      rw [hmod]
      simp only []
      rw [ih cfg name tm cap (c + 1) hf hb (by omega)]
      simp [RunResult.mk.injEq]
      omega

/-- The one overflowing iteration of an armed counted loop: with loop break
disabled, a counter starting at `c ≤ threshold` and enough iterations to pass
the threshold, the loop runs to completion and the whole sink output is the
single full alert emitted at count `threshold + 1`. -/
theorem runCountLoop_alert (n : Nat) : ∀ (cfg : Config) (name : String)
    (tm : Nat) (cap : Option (List String)) (c : Nat),
    cfg.WARN_ONCE_PER_PROCESS = true →
    cfg.ENABLE_LOOP_BREAK = false →
    c ≤ cfg.LOOP_WARN_THRESHOLD →
    cfg.LOOP_WARN_THRESHOLD < c + n →
    c + n < U64 →
    runCountLoop cfg name tm cap c n =
      { cfg := { cfg with WARN_ONCE_PER_PROCESS := false }, cnt := c + n,
        out := (loopWarn cfg name (cfg.LOOP_WARN_THRESHOLD + 1) tm cap).2 } := by
  induction n with
  | zero =>
      intro cfg name tm cap c _ _ hc hlt _
      exact absurd hlt (by omega)
  | succ n ih =>
      intro cfg name tm cap c hw hb hc hlt hU
      have hmod : (c + 1) % U64 = c + 1 := Nat.mod_eq_of_lt (by omega)
      by_cases hct : c = cfg.LOOP_WARN_THRESHOLD
      · -- the incremented counter is threshold + 1: the alert fires here
        have hover : cfg.LOOP_WARN_THRESHOLD < (c + 1) % U64 := by
          rw [hmod]; omega
        have hstep : LOOP_DYNAMIC_COUNT_CHECK cfg name tm cap c
            = { cfg := { cfg with WARN_ONCE_PER_PROCESS := false },
                cnt := c + 1,
                out := (loopWarn cfg name (cfg.LOOP_WARN_THRESHOLD + 1) tm cap).2,
                exit := StmtExit.normal } := by
          unfold LOOP_DYNAMIC_COUNT_CHECK LOOP_DYNAMIC_COUNT_CHECK_body
          rw [hmod] at hover ⊢
          rw [hct]
          simp only [hover, if_true, loopWarn_fst]
          obtain ⟨t, w, st, br⟩ := cfg
          simp only at hb hw
          subst hb; subst hw
          simp only at hct
          subst hct
          simp [doWhile0Exit]
        rw [runCountLoop, hstep]
        simp only []
        rw [runCountLoop_disarmed n { cfg with WARN_ONCE_PER_PROCESS := false }
          name tm cap (c + 1) rfl (by simpa using hb) (by omega)]
        simp [RunResult.mk.injEq]
        omega
      · -- still below the threshold: a silent iteration, recurse
        have hng : ¬ cfg.LOOP_WARN_THRESHOLD < (c + 1) % U64 := by
          rw [hmod]; omega
        rw [runCountLoop, check_count_noover cfg name tm cap c hng]
        rw [hmod]
        simp only []
        rw [ih cfg name tm cap (c + 1) hw hb (by omega) (by omega) (by omega)]
        simp [RunResult.mk.injEq]
        omega

/-- An armed pre-loop check on an overflowing bound emits exactly one full
alert, whatever the break and stack-trace flags are. -/
theorem check_size_emits (cfg : Config) (N : Int) (name : String) (tm : Nat)
    (cap : Option (List String))
    (hlt : cfg.LOOP_WARN_THRESHOLD < toUInt64Cast N)
    (hw : cfg.WARN_ONCE_PER_PROCESS = true) :
    emissions (CHECK_LOOP_DYNAMIC_SIZE cfg N name tm cap).out = 1 := by
  obtain ⟨t, w, st, br⟩ := cfg
  simp only at hlt hw
  subst hw
  unfold CHECK_LOOP_DYNAMIC_SIZE CHECK_LOOP_DYNAMIC_SIZE_body
  cases br <;>
    simp [hlt, doWhile0Exit, loopWarn, emissions_append, emissions_cons,
      emissions_nil, SinkLine.isWarnHeader, emissions_printLoopStackTrace]

/-! ## Claim theorems -/

/-- C1 (code-bug evidence): with break-on-overflow enabled, threshold
1000000 and an overflowing pre-loop bound of 2000000 (or an overflowing
increment at counter 1000000), the `break` in each macro body does run — the
body exits with `brk` after printing the `[LOOP_BREAK]` notice — but the
macro statement delivers a `normal` exit to the enclosing loop, because the
`break` only terminates the macro's own `do ... while(0)`; a counted guarded
loop given five more iterations at the threshold consequently still runs all
five.  The claim (and the code's own "terminate the loop" notice) says the
enclosing loop must be skipped or terminated. -/
theorem c1_break_absorbed_by_do_while :
    (CHECK_LOOP_DYNAMIC_SIZE_body ⟨1000000, true, false, true⟩ 2000000
        "sizeLoop" 0 none).exit = StmtExit.brk ∧
    (CHECK_LOOP_DYNAMIC_SIZE_body ⟨1000000, true, false, true⟩ 2000000
        "sizeLoop" 0 none).out.getLast? = some SinkLine.breakMsgSize ∧
    (CHECK_LOOP_DYNAMIC_SIZE ⟨1000000, true, false, true⟩ 2000000
        "sizeLoop" 0 none).exit = StmtExit.normal ∧
    (LOOP_DYNAMIC_COUNT_CHECK_body ⟨1000000, true, false, true⟩
        "cntLoop" 0 none 1000000).exit = StmtExit.brk ∧
    (LOOP_DYNAMIC_COUNT_CHECK ⟨1000000, true, false, true⟩
        "cntLoop" 0 none 1000000).exit = StmtExit.normal ∧
    (runCountLoop ⟨1000000, true, false, true⟩ "cntLoop" 0 none 1000000 5).cnt
        = 1000005 := by
  decide

/-- C3 (counterexample): setting the threshold is not silent — the code
prints the `[LOOP_CONFIG]` update notice to the diagnostic sink. -/
theorem c3_counterexample_set_threshold_prints :
    (setLoopWarnThreshold initialConfig 5000000).2 ≠ [] := by
  decide

/-- C3 (amended): every store operation is total; resetting the flag touches
only the warn-once flag, and setting the threshold changes only the stored
threshold value — but it additionally writes the `[LOOP_CONFIG]` update
notice to the diagnostic sink. -/
theorem c3_amended_store_ops_frame :
    (∀ (cfg : Config) (n : Nat),
        (setLoopWarnThreshold cfg n).1.LOOP_WARN_THRESHOLD = n ∧
        (setLoopWarnThreshold cfg n).1.WARN_ONCE_PER_PROCESS
          = cfg.WARN_ONCE_PER_PROCESS ∧
        (setLoopWarnThreshold cfg n).1.ENABLE_STACK_TRACE
          = cfg.ENABLE_STACK_TRACE ∧
        (setLoopWarnThreshold cfg n).1.ENABLE_LOOP_BREAK
          = cfg.ENABLE_LOOP_BREAK ∧
        (setLoopWarnThreshold cfg n).2 = [SinkLine.configMsg n]) ∧
    (∀ cfg : Config,
        (resetLoopWarnFlag cfg).WARN_ONCE_PER_PROCESS = true ∧
        (resetLoopWarnFlag cfg).LOOP_WARN_THRESHOLD = cfg.LOOP_WARN_THRESHOLD ∧
        (resetLoopWarnFlag cfg).ENABLE_STACK_TRACE = cfg.ENABLE_STACK_TRACE ∧
        (resetLoopWarnFlag cfg).ENABLE_LOOP_BREAK = cfg.ENABLE_LOOP_BREAK) :=
  ⟨fun _ _ => ⟨rfl, rfl, rfl, rfl, rfl⟩, fun _ => ⟨rfl, rfl, rfl, rfl⟩⟩

/-- C4: the overflow comparison is strictly greater-than — a bound whose
`uint64_t` value is at most the threshold (in particular, exactly equal to
it) leaves the state untouched and prints nothing, while with threshold 0
any nonzero count emits the alert when armed. -/
theorem c4_strict_greater_than :
    ∀ (cfg : Config) (N : Int) (name : String) (tm : Nat)
      (cap : Option (List String)),
      (toUInt64Cast N ≤ cfg.LOOP_WARN_THRESHOLD →
        CHECK_LOOP_DYNAMIC_SIZE cfg N name tm cap
          = { cfg := cfg, out := [], exit := StmtExit.normal }) ∧
      (cfg.LOOP_WARN_THRESHOLD = 0 → 0 < toUInt64Cast N →
        cfg.WARN_ONCE_PER_PROCESS = true →
        emissions (CHECK_LOOP_DYNAMIC_SIZE cfg N name tm cap).out = 1) := by
  intro cfg N name tm cap
  constructor
  · intro hle
    unfold CHECK_LOOP_DYNAMIC_SIZE CHECK_LOOP_DYNAMIC_SIZE_body
    have h : ¬ cfg.LOOP_WARN_THRESHOLD < toUInt64Cast N := by omega
    simp [h, doWhile0Exit]
  · intro h0 hpos hw
    exact check_size_emits cfg N name tm cap (by omega) hw

/-- C4 witness: at the initial configuration a bound exactly equal to the
threshold 1000000 is silent, and with threshold 0 the bound 3 emits one
alert. -/
theorem c4_strict_greater_than_witness :
    CHECK_LOOP_DYNAMIC_SIZE initialConfig 1000000 "w4" 0 none
      = { cfg := initialConfig, out := [], exit := StmtExit.normal } ∧
    emissions (CHECK_LOOP_DYNAMIC_SIZE ⟨0, true, false, false⟩ 3 "w4" 0 none).out
      = 1 :=
  ⟨(c4_strict_greater_than initialConfig 1000000 "w4" 0 none).1 (by decide),
    (c4_strict_greater_than ⟨0, true, false, false⟩ 3 "w4" 0 none).2 rfl
      (by decide) rfl⟩

/-- C2 (counterexample): after the first alert emission the alert flag is
clear, yet with break-on-overflow enabled a subsequent overflowing check
still writes the `[LOOP_BREAK]` notice to the sink — it is not true that
every subsequent overflowing check produces no sink output until the flag is
reset. -/
theorem c2_counterexample_break_notice_after_alert :
    emissions (CHECK_LOOP_DYNAMIC_SIZE ⟨1000000, true, false, true⟩ 2000000
        "loopA" 0 none).out = 1 ∧
    (CHECK_LOOP_DYNAMIC_SIZE ⟨1000000, true, false, true⟩ 2000000
        "loopA" 0 none).cfg.WARN_ONCE_PER_PROCESS = false ∧
    (CHECK_LOOP_DYNAMIC_SIZE
        (CHECK_LOOP_DYNAMIC_SIZE ⟨1000000, true, false, true⟩ 2000000
          "loopA" 0 none).cfg
        2000000 "loopB" 1 none).out = [SinkLine.breakMsgSize] := by
  decide

/-- C2 (amended): over any sequence of checks at most one full alert
emission occurs per armed session, and once the flag is clear, subsequent
checks — whether overflowing or not — emit no further alert and, with
break-on-overflow disabled, produce no sink output at all. -/
theorem c2_amended_one_emission_per_session :
    (∀ (cfg : Config) (cnt : Nat) (evs : List CheckEvent),
        emissions (runChecks cfg cnt evs).out ≤ 1) ∧
    (∀ (cfg : Config) (cnt : Nat) (evs : List CheckEvent),
        cfg.WARN_ONCE_PER_PROCESS = false → cfg.ENABLE_LOOP_BREAK = false →
        (runChecks cfg cnt evs).out = []) := by
  constructor
  · intro cfg cnt evs
    have h := runChecks_potential evs cfg cnt
    have h1 : flagVal cfg ≤ 1 := by unfold flagVal; split <;> omega
    omega
  · intro cfg cnt evs hf hb
    exact (runChecks_quiet evs cfg cnt hf hb).2

/-- C2 witness: two consecutive overflowing pre-loop checks from the initial
configuration emit at most one alert, and an already-alerted configuration
with break disabled prints nothing on a further overflowing check. -/
theorem c2_amended_witness :
    emissions (runChecks initialConfig 0
        [CheckEvent.size 2000000 "w2" 0 none,
          CheckEvent.size 2000000 "w2" 1 none]).out ≤ 1 ∧
    (runChecks ⟨1000000, false, true, false⟩ 0
        [CheckEvent.size 2000000 "w2" 0 none]).out = [] :=
  ⟨c2_amended_one_emission_per_session.1 initialConfig 0 _,
    c2_amended_one_emission_per_session.2 ⟨1000000, false, true, false⟩ 0 _
      rfl rfl⟩

/-- C5: the in-loop check increments the counter and compares on every call,
and a run of 1500000 iterations against threshold 1000000, starting armed
with the counter at 0 and break disabled, runs to completion with its entire
sink output equal to the single full alert emitted at count 1000001 — one
emission exactly. -/
theorem c5_count_check_alerts_once_at_1000001 :
    (∀ (cfg : Config) (name : String) (tm : Nat) (cap : Option (List String))
        (cnt : Nat),
        (LOOP_DYNAMIC_COUNT_CHECK cfg name tm cap cnt).cnt = (cnt + 1) % U64) ∧
    ∀ (st : Bool) (name : String) (tm : Nat) (cap : Option (List String)),
      runCountLoop ⟨1000000, true, st, false⟩ name tm cap 0 1500000
        = { cfg := ⟨1000000, false, st, false⟩, cnt := 1500000,
            out := (loopWarn ⟨1000000, true, st, false⟩ name 1000001 tm cap).2 } ∧
      emissions
        (runCountLoop ⟨1000000, true, st, false⟩ name tm cap 0 1500000).out = 1 := by
  constructor
  · intro cfg name tm cap cnt
    unfold LOOP_DYNAMIC_COUNT_CHECK LOOP_DYNAMIC_COUNT_CHECK_body
    by_cases h : cfg.LOOP_WARN_THRESHOLD < (cnt + 1) % U64
    · by_cases hb : (loopWarn cfg name ((cnt + 1) % U64) tm cap).1.ENABLE_LOOP_BREAK <;>
        simp [h, hb, doWhile0Exit]
    · simp [h, doWhile0Exit]
  · intro st name tm cap
    have h := runCountLoop_alert 1500000 ⟨1000000, true, st, false⟩ name tm cap 0
      rfl rfl (by norm_num) (by norm_num) (by norm_num [U64])
    refine ⟨h, ?_⟩
    rw [h]
    simp [emissions_loopWarn]

/-- C6: when stack capture is disabled by configuration, or the capture
yields no symbols (`backtrace_symbols` returning `NULL`), the rendered frame
sequence is empty and an armed alert is still emitted with exactly its
numeric lines — header, label and count/threshold — and no stack-trace
section. -/
theorem c6_degraded_stack_trace :
    ∀ (cfg : Config) (name : String) (s tm : Nat) (cap : Option (List String)),
      (cfg.ENABLE_STACK_TRACE = false ∨ cap = none) →
      printLoopStackTrace cfg cap = [] ∧
      (cfg.WARN_ONCE_PER_PROCESS = true →
        (loopWarn cfg name s tm cap).2
          = [SinkLine.warnHeader tm, SinkLine.loopNameLine name,
              SinkLine.countLine s cfg.LOOP_WARN_THRESHOLD]) := by
  intro cfg name s tm cap hdis
  have hempty : printLoopStackTrace cfg cap = [] := by
    unfold printLoopStackTrace
    rcases hdis with h | h
    · simp [h]
    · subst h; cases cfg.ENABLE_STACK_TRACE <;> simp
  refine ⟨hempty, fun hw => ?_⟩
  simp [loopWarn, hw, hempty]

/-- C6 witness: the spec scenario — threshold 5, stack trace disabled,
an armed check of bound 10 on loop "test-loop" — yields the alert's three
numeric lines mentioning count 10 and threshold 5, with no stack section. -/
theorem c6_degraded_stack_trace_witness :
    printLoopStackTrace ⟨5, true, false, false⟩ none = [] ∧
    (loopWarn ⟨5, true, false, false⟩ "test-loop" 10 0 none).2
      = [SinkLine.warnHeader 0, SinkLine.loopNameLine "test-loop",
          SinkLine.countLine 10 5] := by
  have h := c6_degraded_stack_trace ⟨5, true, false, false⟩ "test-loop" 10 0 none
    (Or.inl rfl)
  exact ⟨h.1, h.2 rfl⟩

/-- C7: `resetLoopWarnFlag` re-arms one-shot alerting — after a reset, the
next check observing a count above the threshold emits exactly one new full
alert, whatever state the flag was in before. -/
theorem c7_reset_rearms :
    ∀ (cfg : Config) (N : Int) (name : String) (tm : Nat)
      (cap : Option (List String)),
      (resetLoopWarnFlag cfg).LOOP_WARN_THRESHOLD < toUInt64Cast N →
      emissions (CHECK_LOOP_DYNAMIC_SIZE (resetLoopWarnFlag cfg) N name tm cap).out
        = 1 := by
  intro cfg N name tm cap hlt
  exact check_size_emits (resetLoopWarnFlag cfg) N name tm cap hlt
    (by obtain ⟨t, w, st, br⟩ := cfg; rfl)

/-- C7 witness: an already-alerted configuration, once reset, emits exactly
one new alert on an overflowing bound of 2000000 against threshold
1000000. -/
theorem c7_reset_rearms_witness :
    emissions (CHECK_LOOP_DYNAMIC_SIZE
        (resetLoopWarnFlag ⟨1000000, false, true, false⟩) 2000000
        "w7" 0 none).out = 1 :=
  c7_reset_rearms ⟨1000000, false, true, false⟩ 2000000 "w7" 0 none (by decide)

/-- C8: the geometry transform satisfies, for every input, scaleFactor =
targetDiameter / 68, scaledLength = 103 × scaleFactor, draw origin = target
centre minus the reference centre (63, 62.5) scaled, and draw end = draw
origin plus scaledLength in each coordinate; in particular the golden input
(20, 190, 290) yields scaleFactor 20/68, drawX 190 − 63·(20/68) and drawY
290 − 62.5·(20/68). -/
theorem c8_transform_formulas :
    ∀ d x y : ℚ,
      (ImageTransform.CalculateImageTransform d x y).scaleFactor = d / 68 ∧
      (ImageTransform.CalculateImageTransform d x y).scaledLength
        = 103 * (d / 68) ∧
      (ImageTransform.CalculateImageTransform d x y).imageDrawX
        = x - 63 * (d / 68) ∧
      (ImageTransform.CalculateImageTransform d x y).imageDrawY
        = y - 62.5 * (d / 68) ∧
      (ImageTransform.CalculateImageTransform d x y).imageDrawEndX
        = (ImageTransform.CalculateImageTransform d x y).imageDrawX
          + (ImageTransform.CalculateImageTransform d x y).scaledLength ∧
      (ImageTransform.CalculateImageTransform d x y).imageDrawEndY
        = (ImageTransform.CalculateImageTransform d x y).imageDrawY
          + (ImageTransform.CalculateImageTransform d x y).scaledLength ∧
      (ImageTransform.CalculateImageTransform 20 190 290).scaleFactor
        = 20 / 68 ∧
      (ImageTransform.CalculateImageTransform 20 190 290).scaledLength
        = 103 * (20 / 68) ∧
      (ImageTransform.CalculateImageTransform 20 190 290).imageDrawX
        = 190 - 63 * (20 / 68) ∧
      (ImageTransform.CalculateImageTransform 20 190 290).imageDrawY
        = 290 - 62.5 * (20 / 68) := by
  intro d x y
  exact ⟨rfl, rfl, rfl, rfl, rfl, rfl, rfl, rfl, rfl, rfl⟩

/-- C9: the once-per-process configuration flag and the alerted-state flag
are the same variable — a `loopWarn` call finding it clear emits nothing and
changes nothing (so if it is configured false at startup, no sequence of
checks ever emits), and any `loopWarn` call that did produce output leaves
the flag clear, so repeated alerts are impossible without an explicit
reset. -/
theorem c9_once_flag_is_alert_flag :
    ∀ (cfg : Config) (name : String) (s tm : Nat) (cap : Option (List String))
      (cnt : Nat) (evs : List CheckEvent),
      (cfg.WARN_ONCE_PER_PROCESS = false →
        loopWarn cfg name s tm cap = (cfg, []) ∧
        emissions (runChecks cfg cnt evs).out = 0) ∧
      ((loopWarn cfg name s tm cap).2 ≠ [] →
        (loopWarn cfg name s tm cap).1.WARN_ONCE_PER_PROCESS = false) := by
  intro cfg name s tm cap cnt evs
  constructor
  · intro hf
    refine ⟨loopWarn_disarmed cfg name s tm cap hf, ?_⟩
    have h := runChecks_potential evs cfg cnt
    have h2 : emissions (runChecks cfg cnt evs).out ≤ flagVal cfg :=
      le_trans (Nat.le_add_right _ _) h
    simp [flagVal, hf] at h2
    omega
  · intro _
    rw [loopWarn_fst]

/-- C9 witness: a startup configuration with the warn-once flag false never
emits — neither a direct `loopWarn` call nor a run of two overflowing
checks produces output — and an armed `loopWarn` that produced output has
cleared the flag. -/
theorem c9_once_flag_is_alert_flag_witness :
    (loopWarn ⟨1000000, false, true, false⟩ "w9" 2000000 0 none
      = (⟨1000000, false, true, false⟩, []) ∧
     emissions (runChecks ⟨1000000, false, true, false⟩ 0
        [CheckEvent.size 2000000 "w9" 0 none,
          CheckEvent.size 3000000 "w9" 1 none]).out = 0) ∧
    (loopWarn ⟨5, true, false, false⟩ "w9" 10 0 none).1.WARN_ONCE_PER_PROCESS
      = false :=
  ⟨(c9_once_flag_is_alert_flag ⟨1000000, false, true, false⟩ "w9" 2000000 0 none 0
      [CheckEvent.size 2000000 "w9" 0 none,
        CheckEvent.size 3000000 "w9" 1 none]).1 rfl,
    (c9_once_flag_is_alert_flag ⟨5, true, false, false⟩ "w9" 10 0 none 0 []).2
      (by decide)⟩

/-- C10: the pre-loop check converts its bound through `uint64_t` modular
conversion before comparing, so every negative signed 64-bit bound wraps to
a value of at least `2 ^ 63`, and against any threshold below `2 ^ 63` an
armed check on such a bound takes the alert path and emits. -/
theorem c10_negative_bound_wraps_large :
    ∀ z : Int, -(2 ^ 63) ≤ z → z < 0 →
      2 ^ 63 ≤ toUInt64Cast z ∧
      ∀ (cfg : Config) (name : String) (tm : Nat) (cap : Option (List String)),
        cfg.LOOP_WARN_THRESHOLD < 2 ^ 63 →
        cfg.WARN_ONCE_PER_PROCESS = true →
        cfg.LOOP_WARN_THRESHOLD < toUInt64Cast z ∧
        emissions (CHECK_LOOP_DYNAMIC_SIZE cfg z name tm cap).out = 1 := by
  intro z h1 h2
  have e63i : ((2 : Int) ^ 63) = 9223372036854775808 := by norm_num
  rw [e63i] at h1
  have hwrap : 2 ^ 63 ≤ toUInt64Cast z := by
    unfold toUInt64Cast
    have e64 : ((2 : Int) ^ 64) = 18446744073709551616 := by norm_num
    have e63n : ((2 : Nat) ^ 63) = 9223372036854775808 := by norm_num
    rw [e64, e63n]
    omega
  refine ⟨hwrap, fun cfg name tm cap hth hw => ?_⟩
  have hlt : cfg.LOOP_WARN_THRESHOLD < toUInt64Cast z := by omega
  exact ⟨hlt, check_size_emits cfg z name tm cap hlt hw⟩

/-- C10 witness: the bound −1 wraps to `2 ^ 64 − 1 ≥ 2 ^ 63` and, against
the initial configuration's threshold 1000000, an armed check on it emits
exactly one alert. -/
theorem c10_negative_bound_wraps_large_witness :
    2 ^ 63 ≤ toUInt64Cast (-1) ∧
    initialConfig.LOOP_WARN_THRESHOLD < toUInt64Cast (-1) ∧
    emissions (CHECK_LOOP_DYNAMIC_SIZE initialConfig (-1) "w10" 0 none).out = 1 :=
  ⟨(c10_negative_bound_wraps_large (-1) (by norm_num) (by norm_num)).1,
    ((c10_negative_bound_wraps_large (-1) (by norm_num) (by norm_num)).2
      initialConfig "w10" 0 none (by norm_num [initialConfig]) rfl).1,
    ((c10_negative_bound_wraps_large (-1) (by norm_num) (by norm_num)).2
      initialConfig "w10" 0 none (by norm_num [initialConfig]) rfl).2⟩
